import Mathlib

/-!
# Verification of the CVSS vector calculator / converter

Shallow embedding of the CVSS scoring, parsing and conversion logic of the
repository's `script.js` (the CVSS converter widget).  Strings are modelled as
`List Char`, JavaScript numbers as `ℚ` (all constants in the source are exact
decimals), and the DOM-level `alert`+`return` error exits as an `Except` value
with one constructor per distinct alert message.
-/

namespace CVSS

/-- Strings of the JavaScript source, modelled as lists of characters. -/
abbrev Str := List Char

/-- Coerce a Lean string literal to the character-list model. -/
def strL (s : String) : Str := s.data

/-! ## Metric value enumerations (the legal value sets of each metric) -/

/-- Attack Vector values (`AV`): Network, Adjacent, Local, Physical. -/
inductive AttackVector | N | A | L | P
deriving DecidableEq, Repr

/-- Attack Complexity values (`AC`): Low, High. -/
inductive AttackComplexity | L | H
deriving DecidableEq, Repr

/-- Privileges Required values (`PR`): None, Low, High. -/
inductive PrivilegesRequired | N | L | H
deriving DecidableEq, Repr

/-- v3 User Interaction values (`UI`): None, Required. -/
inductive UserInteractionV3 | N | R
deriving DecidableEq, Repr

/-- v3 Scope values (`S`): Unchanged, Changed. -/
inductive Scope | U | C
deriving DecidableEq, Repr

/-- Impact values (`C`,`I`,`A` in v3; `VC`,`VI`,`VA`,`SC`,`SI`,`SA` in v4):
None, Low, High. -/
inductive Impact | N | L | H
deriving DecidableEq, Repr

/-- v4 Attack Requirements values (`AT`): None, Present. -/
inductive AttackRequirements | N | P
deriving DecidableEq, Repr

/-- v4 User Interaction values (`UI`): None, Passive, Active. -/
inductive UserInteractionV4 | N | P | A
deriving DecidableEq, Repr

/-- A legal v3 metric set: the 8 required metrics of the V3 shape, each with a
value from its legal set. -/
structure V3Metrics where
  AV : AttackVector
  AC : AttackComplexity
  PR : PrivilegesRequired
  UI : UserInteractionV3
  S  : Scope
  C  : Impact
  I  : Impact
  A  : Impact
deriving DecidableEq, Repr

/-- A legal v4 metric set: the 11 required metrics of the V4 shape. -/
structure V4Metrics where
  AV : AttackVector
  AC : AttackComplexity
  AT : AttackRequirements
  PR : PrivilegesRequired
  UI : UserInteractionV4
  VC : Impact
  VI : Impact
  VA : Impact
  SC : Impact
  SI : Impact
  SA : Impact
deriving DecidableEq, Repr

/-! ## Score engine (source: `calculateCVSSv3Score`, `calculateCVSSv4Score`,
`roundUp`, `getSeverity`, and the `CVSS3_WEIGHTS` table) -/

/-- `CVSS3_WEIGHTS.AV` of the source. -/
def av_weight : AttackVector → ℚ
  | .N => 0.85 | .A => 0.62 | .L => 0.55 | .P => 0.2

/-- `CVSS3_WEIGHTS.AC` of the source. -/
def ac_weight : AttackComplexity → ℚ
  | .L => 0.77 | .H => 0.44

/-- `CVSS3_WEIGHTS.PR` of the source: outer key `PR`, inner key Scope. -/
def pr_weight : PrivilegesRequired → Scope → ℚ
  | .N, .U => 0.85 | .N, .C => 0.85
  | .L, .U => 0.62 | .L, .C => 0.68
  | .H, .U => 0.27 | .H, .C => 0.50

/-- `CVSS3_WEIGHTS.UI` of the source. -/
def ui_weight : UserInteractionV3 → ℚ
  | .N => 0.85 | .R => 0.62

/-- `CVSS3_WEIGHTS.C` / `.I` / `.A` of the source (all three identical). -/
def cia_weight : Impact → ℚ
  | .N => 0 | .L => 0.22 | .H => 0.56

/-- `roundUp` of the source: `Math.ceil(value * 10) / 10`. -/
def roundUp (value : ℚ) : ℚ := (⌈value * 10⌉ : ℚ) / 10

/-- `calculateCVSSv3Score` of the source, on a legal v3 metric set. -/
def calculateCVSSv3Score (m : V3Metrics) : ℚ :=
  let avScore := av_weight m.AV
  let acScore := ac_weight m.AC
  let prScore := pr_weight m.PR m.S
  let uiScore := ui_weight m.UI
  let cScore := cia_weight m.C
  let iScore := cia_weight m.I
  let aScore := cia_weight m.A
  let iss := 1 - ((1 - cScore) * (1 - iScore) * (1 - aScore))
  let impact :=
    if m.S = Scope.U then 6.42 * iss
    else 7.52 * (iss - 0.029) - 3.25 * (iss - 0.02) ^ 15
  let exploitability := 8.22 * avScore * acScore * prScore * uiScore
  let baseScore :=
    if impact ≤ 0 then 0
    else if m.S = Scope.U then min (impact + exploitability) 10
    else min (1.08 * (impact + exploitability)) 10
  roundUp baseScore

/-- The inline `avWeight` table of `calculateCVSSv4Score`. -/
def av4_weight : AttackVector → ℚ
  | .N => 0.85 | .A => 0.62 | .L => 0.55 | .P => 0.2

/-- The inline `acWeight` table of `calculateCVSSv4Score`. -/
def ac4_weight : AttackComplexity → ℚ
  | .L => 0.77 | .H => 0.44

/-- The inline `atWeight` table of `calculateCVSSv4Score`. -/
def at4_weight : AttackRequirements → ℚ
  | .N => 1.0 | .P => 0.8

/-- The inline `prWeight` table of `calculateCVSSv4Score`. -/
def pr4_weight : PrivilegesRequired → ℚ
  | .N => 0.85 | .L => 0.62 | .H => 0.27

/-- The inline `uiWeight` table of `calculateCVSSv4Score`. -/
def ui4_weight : UserInteractionV4 → ℚ
  | .N => 0.85 | .P => 0.70 | .A => 0.62

/-- The inline impact weight table of `calculateCVSSv4Score`
(used for `VC`,`VI`,`VA`,`SC`,`SI`,`SA`). -/
def imp4_weight : Impact → ℚ
  | .N => 0 | .L => 0.22 | .H => 0.56

/-- `calculateCVSSv4Score` of the source, on a legal v4 metric set. -/
def calculateCVSSv4Score (m : V4Metrics) : ℚ :=
  let avWeight := av4_weight m.AV
  let acWeight := ac4_weight m.AC
  let atWeight := at4_weight m.AT
  let prWeight := pr4_weight m.PR
  let uiWeight := ui4_weight m.UI
  let vcWeight := imp4_weight m.VC
  let viWeight := imp4_weight m.VI
  let vaWeight := imp4_weight m.VA
  let scWeight := imp4_weight m.SC
  let siWeight := imp4_weight m.SI
  let saWeight := imp4_weight m.SA
  let exploitability := 8.22 * avWeight * acWeight * atWeight * prWeight * uiWeight
  let vulnImpact := 1 - ((1 - vcWeight) * (1 - viWeight) * (1 - vaWeight))
  let subImpact := 1 - ((1 - scWeight) * (1 - siWeight) * (1 - saWeight))
  let impact := 6.42 * max vulnImpact subImpact
  let baseScore := min (impact + exploitability) 10
  roundUp baseScore

/-- `getSeverity` of the source. -/
def getSeverity (score : ℚ) : String :=
  if score = 0 then "None"
  else if score < 4.0 then "Low"
  else if score < 7.0 then "Medium"
  else if score < 9.0 then "High"
  else "Critical"

/-! ## Vector codec (source: `parseVector`, `generateVector`) -/

/-- JavaScript `String.prototype.split(sep)` on the character-list model:
`"".split(s) = [""]`, separators at the ends produce empty segments. -/
def splitC (sep : Char) : Str → List Str
  | [] => [[]]
  | c :: cs =>
    match splitC sep cs with
    | [] => [[c]]
    | t :: ts => if c = sep then [] :: t :: ts else (c :: t) :: ts

/-- Whitespace recognizer backing the JavaScript `trim()` call. -/
def ws (c : Char) : Bool := c = ' ' ∨ c = '\t' ∨ c = '\n' ∨ c = '\r'

/-- JavaScript `String.prototype.trim()`: drop whitespace from both ends. -/
def trim (s : Str) : Str :=
  ((s.dropWhile ws).reverse.dropWhile ws).reverse

/-- JavaScript object assignment `newMetrics[key] = value`: overwrite the
value of an existing key in place, otherwise append the new key. -/
def insertKV : List (Str × Str) → Str → Str → List (Str × Str)
  | [], k, v => [(k, v)]
  | (k', v') :: rest, k, v =>
    if k' = k then (k, v) :: rest else (k', v') :: insertKV rest k v

/-- JavaScript property read `m[key]` on the metrics object. -/
def lookupKV : List (Str × Str) → Str → Option Str
  | [], _ => none
  | (k', v') :: rest, k => if k' = k then some v' else lookupKV rest k

/-- One iteration of the `parseVector` extraction loop:
`const [key, value] = parts[i].split(':'); if (key && value) newMetrics[key] = value;`.
`key`/`value` are the first two components of the split (further components are
discarded by the destructuring); both must be non-empty (truthy). -/
def extractStep (m : List (Str × Str)) (part : Str) : List (Str × Str) :=
  match splitC ':' part with
  | k :: v :: _ => if k = [] ∨ v = [] then m else insertKV m k v
  | _ => m

/-- The whole extraction loop of `parseVector`, over `parts[1..]`. -/
def extractPairs (parts : List Str) : List (Str × Str) :=
  parts.foldl extractStep []

/-- A segment the extraction loop skips: its split yields no second component,
or an empty first or second component (the `if (key && value)` guard fails). -/
def badSeg (s : Str) : Bool :=
  match splitC ':' s with
  | k :: v :: _ => k.isEmpty || v.isEmpty
  | _ => true

/-- The claim's description of segment splitting, for comparison with the
source behavior: split once at the first `:`, the remainder (further colons
included) becoming the value. -/
def splitOnceColon : Str → Option (Str × Str)
  | [] => none
  | c :: cs =>
    if c = ':' then some ([], cs)
    else
      match splitOnceColon cs with
      | some (k, v) => some (c :: k, v)
      | none => none

/-- The required-metric lists checked by `parseVector` (v3). -/
def requiredV3 : List Str :=
  [strL "AV", strL "AC", strL "PR", strL "UI", strL "S", strL "C", strL "I", strL "A"]

/-- The required-metric lists checked by `parseVector` (v4). -/
def requiredV4 : List Str :=
  [strL "AV", strL "AC", strL "AT", strL "PR", strL "UI", strL "VC", strL "VI",
   strL "VA", strL "SC", strL "SI", strL "SA"]

/-- The distinct `alert`-and-return exits of `parseVector`, as error values. -/
inductive ParseErr
  | emptyInput
  | invalidFormat
  | missingMetric (key : Str)
deriving DecidableEq, Repr

/-- A successful parse: the version (3 or 4) and the extracted metrics object. -/
structure ParsedVec where
  version : Nat
  metrics : List (Str × Str)
deriving DecidableEq, Repr

/-- The validation tail of `parseVector`: extract the `key:value` pairs of
`parts[1..]` and check the required metrics of the detected version, reporting
the first missing one. -/
def finishParse (ver : Nat) (s : Str) : Except ParseErr ParsedVec :=
  match (if ver = 3 then requiredV3 else requiredV4).find?
      (fun k => (lookupKV (extractPairs (splitC '/' s).tail) k).isNone) with
  | some k => .error (.missingMetric k)
  | none => .ok ⟨ver, extractPairs (splitC '/' s).tail⟩

/-- JavaScript `String.prototype.startsWith(pat)`: character-by-character
comparison of the pattern against the front of the string. -/
def startsWithL : Str → Str → Bool
  | [], _ => true
  | _ :: _, [] => false
  | p :: ps, c :: cs => if p = c then startsWithL ps cs else false

/-- `parseVector` of the source: trim, reject empty input, detect the version
from the literal prefix, then extract and validate the metrics. -/
def parseVector (input : Str) : Except ParseErr ParsedVec :=
  let s := trim input
  if s = [] then .error .emptyInput
  else if startsWithL (strL "CVSS:3.0") s || startsWithL (strL "CVSS:3.1") s then
    finishParse 3 s
  else if startsWithL (strL "CVSS:4.0") s then
    finishParse 4 s
  else .error .invalidFormat

/-! ### Serialization (source: `generateVector`) -/

/-- The single-character value code of an `AV` value. -/
def AttackVector.char : AttackVector → Char
  | .N => 'N' | .A => 'A' | .L => 'L' | .P => 'P'

/-- The single-character value code of an `AC` value. -/
def AttackComplexity.char : AttackComplexity → Char
  | .L => 'L' | .H => 'H'

/-- The single-character value code of a `PR` value. -/
def PrivilegesRequired.char : PrivilegesRequired → Char
  | .N => 'N' | .L => 'L' | .H => 'H'

/-- The single-character value code of a v3 `UI` value. -/
def UserInteractionV3.char : UserInteractionV3 → Char
  | .N => 'N' | .R => 'R'

/-- The single-character value code of an `S` value. -/
def Scope.char : Scope → Char
  | .U => 'U' | .C => 'C'

/-- The single-character value code of an impact value. -/
def Impact.char : Impact → Char
  | .N => 'N' | .L => 'L' | .H => 'H'

/-- The single-character value code of an `AT` value. -/
def AttackRequirements.char : AttackRequirements → Char
  | .N => 'N' | .P => 'P'

/-- The single-character value code of a v4 `UI` value. -/
def UserInteractionV4.char : UserInteractionV4 → Char
  | .N => 'N' | .P => 'P' | .A => 'A'

/-- Segment list of the v3 template literal of `generateVector`:
`AV:…`, `AC:…`, `PR:…`, `UI:…`, `S:…`, `C:…`, `I:…`, `A:…`. -/
def v3segs (m : V3Metrics) : List Str :=
  [strL "AV" ++ ':' :: [m.AV.char], strL "AC" ++ ':' :: [m.AC.char],
   strL "PR" ++ ':' :: [m.PR.char], strL "UI" ++ ':' :: [m.UI.char],
   strL "S" ++ ':' :: [m.S.char], strL "C" ++ ':' :: [m.C.char],
   strL "I" ++ ':' :: [m.I.char], strL "A" ++ ':' :: [m.A.char]]

/-- Segment list of the v4 template literal of `generateVector`. -/
def v4segs (m : V4Metrics) : List Str :=
  [strL "AV" ++ ':' :: [m.AV.char], strL "AC" ++ ':' :: [m.AC.char],
   strL "AT" ++ ':' :: [m.AT.char], strL "PR" ++ ':' :: [m.PR.char],
   strL "UI" ++ ':' :: [m.UI.char], strL "VC" ++ ':' :: [m.VC.char],
   strL "VI" ++ ':' :: [m.VI.char], strL "VA" ++ ':' :: [m.VA.char],
   strL "SC" ++ ':' :: [m.SC.char], strL "SI" ++ ':' :: [m.SI.char],
   strL "SA" ++ ':' :: [m.SA.char]]

/-- Concatenate segments, each preceded by a `/`. -/
def slashSegs : List Str → Str
  | [] => []
  | s :: ss => '/' :: (s ++ slashSegs ss)

/-- `generateVector` of the source for the v3 shape: the template literal
`CVSS:3.1/AV:…/AC:…/PR:…/UI:…/S:…/C:…/I:…/A:…`. -/
def generateVector3 (m : V3Metrics) : Str :=
  strL "CVSS:3.1" ++ slashSegs (v3segs m)

/-- `generateVector` of the source for the v4 shape. -/
def generateVector4 (m : V4Metrics) : Str :=
  strL "CVSS:4.0" ++ slashSegs (v4segs m)

/-- The metrics object a legal v3 metric set denotes, in canonical order. -/
def v3map (m : V3Metrics) : List (Str × Str) :=
  [(strL "AV", [m.AV.char]), (strL "AC", [m.AC.char]), (strL "PR", [m.PR.char]),
   (strL "UI", [m.UI.char]), (strL "S", [m.S.char]), (strL "C", [m.C.char]),
   (strL "I", [m.I.char]), (strL "A", [m.A.char])]

/-- The metrics object a legal v4 metric set denotes, in canonical order. -/
def v4map (m : V4Metrics) : List (Str × Str) :=
  [(strL "AV", [m.AV.char]), (strL "AC", [m.AC.char]), (strL "AT", [m.AT.char]),
   (strL "PR", [m.PR.char]), (strL "UI", [m.UI.char]), (strL "VC", [m.VC.char]),
   (strL "VI", [m.VI.char]), (strL "VA", [m.VA.char]), (strL "SC", [m.SC.char]),
   (strL "SI", [m.SI.char]), (strL "SA", [m.SA.char])]

/-! ## Cross-version converter (source: `convertVector`, `maxImpact`) -/

/-- The `order` table of `maxImpact`. -/
def impactOrder : Impact → Nat
  | .N => 0 | .L => 1 | .H => 2

/-- `maxImpact` of the source: `if (order[impact1] >= order[impact2]) return
impact1; return impact2;`. -/
def maxImpact (impact1 impact2 : Impact) : Impact :=
  if impactOrder impact2 ≤ impactOrder impact1 then impact1 else impact2

/-- Warning pushed when converting v3 `UI:R` to v4. -/
def warnUIv4 : String :=
  "UI:R mapped to UI:P (Passive). Consider if UI:A (Active) is more appropriate."

/-- Warning pushed when converting v3 `S:C` to v4. -/
def warnScopeV4 : String :=
  "Scope:Changed mapped to both Vulnerable and Subsequent system impacts. Review appropriateness."

/-- Warning always pushed when converting v3 to v4 (`AT` has no v3 source). -/
def warnATv4 : String :=
  "AT (Attack Requirements) set to None - no v3 equivalent."

/-- Warning pushed when converting v4 `UI:P`/`UI:A` to v3. -/
def warnUIv3 : String :=
  "UI:P or UI:A mapped to UI:R (Required). v3 has less granularity."

/-- Warning pushed when a converted v4 vector has subsequent-system impact. -/
def warnScopeV3 : String :=
  "Subsequent system impacts detected - Scope set to Changed."

/-- Warning always pushed when converting v4 to v3 (`AT` dropped). -/
def warnATv3 : String :=
  "AT (Attack Requirements) metric has no v3 equivalent and was dropped."

/-- Warning always pushed when converting v4 to v3 (impacts merged). -/
def warnMergeV3 : String :=
  "Impact metrics merged from Vulnerable and Subsequent systems (using maximum)."

/-- The v3→v4 branch of `convertVector`: the converted metric set together with
the `warnings` list, in the order the source pushes them. -/
def convertV3toV4 (m : V3Metrics) : V4Metrics × List String :=
  let uiPart : UserInteractionV4 × List String :=
    match m.UI with
    | .N => (.N, [])
    | .R => (.P, [warnUIv4])
  let impPart : (Impact × Impact × Impact) × List String :=
    match m.S with
    | .U => ((.N, .N, .N), [])
    | .C => ((m.C, m.I, m.A), [warnScopeV4])
  (⟨m.AV, m.AC, .N, m.PR, uiPart.1, m.C, m.I, m.A,
    impPart.1.1, impPart.1.2.1, impPart.1.2.2⟩,
   uiPart.2 ++ impPart.2 ++ [warnATv4])

/-- The v4→v3 branch of `convertVector`. -/
def convertV4toV3 (m : V4Metrics) : V3Metrics × List String :=
  let uiPart : UserInteractionV3 × List String :=
    match m.UI with
    | .N => (.N, [])
    | _ => (.R, [warnUIv3])
  let hasSubsequentImpact : Bool :=
    match m.SC, m.SI, m.SA with
    | .N, .N, .N => false
    | _, _, _ => true
  (⟨m.AV, m.AC, m.PR, uiPart.1,
    if hasSubsequentImpact then .C else .U,
    maxImpact m.VC m.SC, maxImpact m.VI m.SI, maxImpact m.VA m.SA⟩,
   uiPart.2 ++ (if hasSubsequentImpact then [warnScopeV3] else [])
     ++ [warnATv3, warnMergeV3])

/-! ## Spec-side scoring (transcribed from the specification text of §4.2, for
the refinement claims; to be compared with the source-side definitions) -/

/-- Spec §4.2 v3 weight table for `AV`: `N=0.85 A=0.62 L=0.55 P=0.20`. -/
def specAVweight : AttackVector → ℚ
  | .N => 0.85 | .A => 0.62 | .L => 0.55 | .P => 0.20

/-- Spec §4.2 v3 weight table for `AC`: `L=0.77 H=0.44`. -/
def specACweight : AttackComplexity → ℚ
  | .L => 0.77 | .H => 0.44

/-- Spec §4.2 v3 weight table for `PR` (inner key = Scope):
`N={U:0.85,C:0.85} L={U:0.62,C:0.68} H={U:0.27,C:0.50}`. -/
def specPRweight : PrivilegesRequired → Scope → ℚ
  | .N, .U => 0.85 | .N, .C => 0.85
  | .L, .U => 0.62 | .L, .C => 0.68
  | .H, .U => 0.27 | .H, .C => 0.50

/-- Spec §4.2 v3 weight table for `UI`: `N=0.85 R=0.62`. -/
def specUIweight : UserInteractionV3 → ℚ
  | .N => 0.85 | .R => 0.62

/-- Spec §4.2 v3 weight table for `C`/`I`/`A`: `N=0 L=0.22 H=0.56`. -/
def specCIAweight : Impact → ℚ
  | .N => 0 | .L => 0.22 | .H => 0.56

/-- Spec §4.2 step 1: `ISS = 1 - (1-Cw)(1-Iw)(1-Aw)`. -/
def specISS (m : V3Metrics) : ℚ :=
  1 - ((1 - specCIAweight m.C) * (1 - specCIAweight m.I) * (1 - specCIAweight m.A))

/-- Spec §4.2 step 2 / claim C2: `Impact = 6.42 × ISS` if Scope=U; else
`Impact = 7.52×(ISS−0.029) − 3.25×(ISS−0.02)^15`. -/
def specImpactV3 (m : V3Metrics) : ℚ :=
  if m.S = Scope.U then 6.42 * specISS m
  else 7.52 * (specISS m - 0.029) - 3.25 * (specISS m - 0.02) ^ 15

/-- Spec §4.2 step 3: `Exploitability = 8.22 × AVw × ACw × PRw × UIw`. -/
def specExploitabilityV3 (m : V3Metrics) : ℚ :=
  8.22 * specAVweight m.AV * specACweight m.AC * specPRweight m.PR m.S * specUIweight m.UI

/-- Spec §4.2 step 4 / claim C2: if `Impact ≤ 0`, `BaseScore = 0`; else for
Scope=U `min(Impact+Exploitability, 10)`, else `min(1.08×(Impact+Exploitability), 10)`. -/
def specBaseScoreV3 (m : V3Metrics) : ℚ :=
  if specImpactV3 m ≤ 0 then 0
  else if m.S = Scope.U then min (specImpactV3 m + specExploitabilityV3 m) 10
  else min (1.08 * (specImpactV3 m + specExploitabilityV3 m)) 10

/-- Spec §3 Score rule / claim C2: round up to one decimal, the ceiling of 10x
over 10. -/
def specRoundUp (x : ℚ) : ℚ := (⌈x * 10⌉ : ℚ) / 10

/-- Spec §4.2 `scoreV3`: the base score rounded up to one decimal. -/
def specScoreV3 (m : V3Metrics) : ℚ := specRoundUp (specBaseScoreV3 m)

/-- Spec §4.2 v4 weight table for `AV` (claim C3). -/
def specAV4weight : AttackVector → ℚ
  | .N => 0.85 | .A => 0.62 | .L => 0.55 | .P => 0.20

/-- Spec §4.2 v4 weight table for `AC` (claim C3). -/
def specAC4weight : AttackComplexity → ℚ
  | .L => 0.77 | .H => 0.44

/-- Spec §4.2 v4 weight table for `AT`: `N=1.00 P=0.80` (claim C3). -/
def specAT4weight : AttackRequirements → ℚ
  | .N => 1.00 | .P => 0.80

/-- Spec §4.2 v4 weight table for `PR`: `N=0.85 L=0.62 H=0.27` (claim C3). -/
def specPR4weight : PrivilegesRequired → ℚ
  | .N => 0.85 | .L => 0.62 | .H => 0.27

/-- Spec §4.2 v4 weight table for `UI`: `N=0.85 P=0.70 A=0.62` (claim C3). -/
def specUI4weight : UserInteractionV4 → ℚ
  | .N => 0.85 | .P => 0.70 | .A => 0.62

/-- Spec §4.2 v4 impact weight table: `N=0 L=0.22 H=0.56` (claim C3). -/
def specImp4weight : Impact → ℚ
  | .N => 0 | .L => 0.22 | .H => 0.56

/-- Spec §4.2 v4 step 1: `Exploitability = 8.22 × AVw × ACw × ATw × PRw × UIw`. -/
def specExploitabilityV4 (m : V4Metrics) : ℚ :=
  8.22 * specAV4weight m.AV * specAC4weight m.AC * specAT4weight m.AT *
    specPR4weight m.PR * specUI4weight m.UI

/-- Spec §4.2 v4 step 2: `VulnImpact = 1-(1-VCw)(1-VIw)(1-VAw)`. -/
def specVulnImpact (m : V4Metrics) : ℚ :=
  1 - ((1 - specImp4weight m.VC) * (1 - specImp4weight m.VI) * (1 - specImp4weight m.VA))

/-- Spec §4.2 v4 step 2: `SubImpact = 1-(1-SCw)(1-SIw)(1-SAw)`. -/
def specSubImpact (m : V4Metrics) : ℚ :=
  1 - ((1 - specImp4weight m.SC) * (1 - specImp4weight m.SI) * (1 - specImp4weight m.SA))

/-- Spec §4.2 v4 step 3: `Impact = 6.42 × max(VulnImpact, SubImpact)`. -/
def specImpactV4 (m : V4Metrics) : ℚ :=
  6.42 * max (specVulnImpact m) (specSubImpact m)

/-- Spec §4.2 v4 steps 4–5 / claim C3: `scoreV4` is the rounded-up value of
`min(Impact + Exploitability, 10)`. -/
def specScoreV4 (m : V4Metrics) : ℚ :=
  specRoundUp (min (specImpactV4 m + specExploitabilityV4 m) 10)

end CVSS

namespace CVSS

instance {ε α : Type} [DecidableEq ε] [DecidableEq α] : DecidableEq (Except ε α) := fun
  | .ok a, .ok b =>
    if h : a = b then .isTrue (by rw [h]) else .isFalse (by simp [h])
  | .ok _, .error _ => .isFalse (by simp)
  | .error _, .ok _ => .isFalse (by simp)
  | .error e, .error f =>
    if h : e = f then .isTrue (by rw [h]) else .isFalse (by simp [h])

/-- Characterization of `roundUp` at a concrete output: `⌈v*10⌉ = n` as two
inequalities. -/
lemma roundUp_eq (v : ℚ) (n : ℤ) (h1 : (n : ℚ) - 1 < v * 10) (h2 : v * 10 ≤ (n : ℚ)) :
    roundUp v = (n : ℚ) / 10 := by
  unfold roundUp
  have h : ⌈v * 10⌉ = n := Int.ceil_eq_iff.mpr ⟨h1, h2⟩
  rw [h]

/-! ## Lemmas about the codec building blocks -/

lemma splitC_ne_nil (sep : Char) (s : Str) : splitC sep s ≠ [] := by
  induction s with
  | nil => simp [splitC]
  | cons c cs ih =>
    simp only [splitC]
    cases h : splitC sep cs with
    | nil => simp
    | cons t ts => by_cases hc : c = sep <;> simp [hc]

lemma splitC_no_sep {sep : Char} {xs : Str} (h : sep ∉ xs) : splitC sep xs = [xs] := by
  induction xs with
  | nil => rfl
  | cons c cs ih =>
    have hc : ¬ c = sep := by rintro rfl; exact h (List.mem_cons_self _ _)
    have hcs : sep ∉ cs := fun e => h (List.mem_cons_of_mem _ e)
    simp [splitC, ih hcs, hc]

lemma splitC_append {sep : Char} {xs ys : Str} (h : sep ∉ xs) :
    splitC sep (xs ++ sep :: ys) = xs :: splitC sep ys := by
  induction xs with
  | nil =>
    obtain ⟨t, ts, hts⟩ : ∃ t ts, splitC sep ys = t :: ts := by
      cases h' : splitC sep ys with
      | nil => exact absurd h' (splitC_ne_nil sep ys)
      | cons t ts => exact ⟨t, ts, rfl⟩
    simp [splitC, hts]
  | cons c cs ih =>
    have hc : ¬ c = sep := by rintro rfl; exact h (List.mem_cons_self _ _)
    have hcs : sep ∉ cs := fun e => h (List.mem_cons_of_mem _ e)
    simp [splitC, ih hcs, hc]

/-- Splitting a prefix followed by slash-prefixed segments recovers the
prefix and the segments, provided nothing contains a slash. -/
lemma splitC_slashSegs {xs : Str} (segs : List Str) (hx : '/' ∉ xs)
    (hs : ∀ s ∈ segs, '/' ∉ s) :
    splitC '/' (xs ++ slashSegs segs) = xs :: segs := by
  induction segs generalizing xs with
  | nil => simpa [slashSegs] using splitC_no_sep hx
  | cons s ss ih =>
    have h1 : xs ++ slashSegs (s :: ss) = xs ++ '/' :: (s ++ slashSegs ss) := rfl
    rw [h1, splitC_append hx, ih (hs s (by simp)) (fun t ht => hs t (by simp [ht]))]

lemma trim_eq_self {s : Str} (h1 : ∀ c, s.head? = some c → ws c = false)
    (h2 : ∀ c, s.getLast? = some c → ws c = false) : trim s = s := by
  unfold trim
  cases s with
  | nil => rfl
  | cons a t =>
    rw [List.dropWhile_cons, if_neg (by simp [h1 a rfl])]
    cases hrev : (a :: t).reverse with
    | nil => simp at hrev
    | cons d es =>
      have hd : ws d = false := h2 d (by rw [← List.head?_reverse, hrev]; rfl)
      have hdw : List.dropWhile ws (d :: es) = d :: es := by simp [hd]
      rw [hdw, ← hrev, List.reverse_reverse]

lemma lookupKV_insertKV_self (m : List (Str × Str)) (k v : Str) :
    lookupKV (insertKV m k v) k = some v := by
  induction m with
  | nil => simp [insertKV, lookupKV]
  | cons p rest ih =>
    obtain ⟨k', v'⟩ := p
    by_cases h : k' = k <;> simp [insertKV, lookupKV, h, ih]

lemma lookupKV_insertKV_ne (m : List (Str × Str)) {k k' : Str} (v : Str) (h : k' ≠ k) :
    lookupKV (insertKV m k v) k' = lookupKV m k' := by
  induction m with
  | nil => simp [insertKV, lookupKV, Ne.symm h]
  | cons p rest ih =>
    obtain ⟨k'', v''⟩ := p
    by_cases h2 : k'' = k
    · subst h2
      simp [insertKV, lookupKV, Ne.symm h]
    · simp [insertKV, lookupKV, h2, ih]

lemma extractStep_eq (acc : List (Str × Str)) {k v : Str} (hk : k ≠ []) (hv : v ≠ [])
    (hkc : ':' ∉ k) (hvc : ':' ∉ v) :
    extractStep acc (k ++ ':' :: v) = insertKV acc k v := by
  unfold extractStep
  rw [splitC_append hkc, splitC_no_sep hvc]
  simp [hk, hv]

/-- A character that is neither of the two separators nor whitespace. -/
@[reducible] def goodChar (c : Char) : Prop := c ≠ '/' ∧ c ≠ ':' ∧ ws c = false

/-- A well-formed key/value pair: both components non-empty and colon-free. -/
@[reducible] def goodPair (p : Str × Str) : Prop :=
  p.1 ≠ [] ∧ p.2 ≠ [] ∧ ':' ∉ p.1 ∧ ':' ∉ p.2

lemma goodPair_of (k : Str) (c : Char) (hk1 : k ≠ []) (hk2 : ':' ∉ k) (hc : goodChar c) :
    goodPair (k, [c]) := by
  refine ⟨hk1, by simp, hk2, ?_⟩
  simp only [List.mem_singleton]
  exact fun e => hc.2.1 e.symm

lemma no_slash_seg {k : Str} {c : Char} (hk : '/' ∉ k) (hc : goodChar c) :
    '/' ∉ (k ++ ':' :: [c]) := by
  simp only [List.mem_append, List.mem_cons, List.not_mem_nil, or_false, not_or]
  exact ⟨hk, by decide, fun e => hc.1 e.symm⟩

/-- On a list of serialized well-formed `key:value` segments, the extraction
loop is the corresponding fold of object assignments. -/
lemma foldl_extractStep_toSegs (ps : List (Str × Str)) (acc : List (Str × Str))
    (h : ∀ p ∈ ps, goodPair p) :
    List.foldl extractStep acc (ps.map fun p => p.1 ++ ':' :: p.2) =
      ps.foldl (fun a p => insertKV a p.1 p.2) acc := by
  induction ps generalizing acc with
  | nil => rfl
  | cons p rest ih =>
    obtain ⟨h1, h2, h3, h4⟩ := h p (by simp)
    simp only [List.map_cons, List.foldl_cons, extractStep_eq acc h1 h2 h3 h4]
    exact ih _ (fun q hq => h q (by simp [hq]))

lemma avChar_good (v : AttackVector) : goodChar v.char := by cases v <;> decide

lemma acChar_good (v : AttackComplexity) : goodChar v.char := by cases v <;> decide

lemma prChar_good (v : PrivilegesRequired) : goodChar v.char := by cases v <;> decide

lemma ui3Char_good (v : UserInteractionV3) : goodChar v.char := by cases v <;> decide

lemma sChar_good (v : Scope) : goodChar v.char := by cases v <;> decide

lemma impChar_good (v : Impact) : goodChar v.char := by cases v <;> decide

lemma atChar_good (v : AttackRequirements) : goodChar v.char := by cases v <;> decide

lemma ui4Char_good (v : UserInteractionV4) : goodChar v.char := by cases v <;> decide

/-- A parse of a string with the literal `CVSS:3.1` prefix always reaches the
extraction/validation stage (provided the ends are not trimmed away). -/
lemma parseVector_eq_finishParse3 {rest : Str}
    (hlast : ∀ c, (strL "CVSS:3.1" ++ rest).getLast? = some c → ws c = false) :
    parseVector (strL "CVSS:3.1" ++ rest) = finishParse 3 (strL "CVSS:3.1" ++ rest) := by
  have hhead : (strL "CVSS:3.1" ++ rest).head? = some 'C' := rfl
  have htrim : trim (strL "CVSS:3.1" ++ rest) = strL "CVSS:3.1" ++ rest := by
    apply trim_eq_self _ hlast
    intro c hc
    rw [hhead, Option.some_inj] at hc
    rw [← hc]; rfl
  have hne : strL "CVSS:3.1" ++ rest ≠ [] := by
    intro e; rw [e] at hhead; exact Option.noConfusion hhead
  have hp0 : startsWithL (strL "CVSS:3.0") (strL "CVSS:3.1" ++ rest) = false := by
    show startsWithL ['C','V','S','S',':','3','.','0']
      (['C','V','S','S',':','3','.','1'] ++ rest) = false
    simp [startsWithL]
  have hp1 : startsWithL (strL "CVSS:3.1") (strL "CVSS:3.1" ++ rest) = true := by
    show startsWithL ['C','V','S','S',':','3','.','1']
      (['C','V','S','S',':','3','.','1'] ++ rest) = true
    simp [startsWithL]
  unfold parseVector
  rw [htrim, if_neg hne, hp0, hp1]
  simp

/-- Same for the `CVSS:4.0` prefix. -/
lemma parseVector_eq_finishParse4 {rest : Str}
    (hlast : ∀ c, (strL "CVSS:4.0" ++ rest).getLast? = some c → ws c = false) :
    parseVector (strL "CVSS:4.0" ++ rest) = finishParse 4 (strL "CVSS:4.0" ++ rest) := by
  have hhead : (strL "CVSS:4.0" ++ rest).head? = some 'C' := rfl
  have htrim : trim (strL "CVSS:4.0" ++ rest) = strL "CVSS:4.0" ++ rest := by
    apply trim_eq_self _ hlast
    intro c hc
    rw [hhead, Option.some_inj] at hc
    rw [← hc]; rfl
  have hne : strL "CVSS:4.0" ++ rest ≠ [] := by
    intro e; rw [e] at hhead; exact Option.noConfusion hhead
  have hp0 : startsWithL (strL "CVSS:3.0") (strL "CVSS:4.0" ++ rest) = false := by
    show startsWithL ['C','V','S','S',':','3','.','0']
      (['C','V','S','S',':','4','.','0'] ++ rest) = false
    simp [startsWithL]
  have hp1 : startsWithL (strL "CVSS:3.1") (strL "CVSS:4.0" ++ rest) = false := by
    show startsWithL ['C','V','S','S',':','3','.','1']
      (['C','V','S','S',':','4','.','0'] ++ rest) = false
    simp [startsWithL]
  have hp4 : startsWithL (strL "CVSS:4.0") (strL "CVSS:4.0" ++ rest) = true := by
    show startsWithL ['C','V','S','S',':','4','.','0']
      (['C','V','S','S',':','4','.','0'] ++ rest) = true
    simp [startsWithL]
  unfold parseVector
  rw [htrim, if_neg hne, hp0, hp1, hp4]
  simp

/-- A failing `finishParse` can only report a missing metric. -/
lemma finishParse_error {ver : Nat} {s : Str} {e : ParseErr}
    (h : finishParse ver s = .error e) : ∃ k, e = ParseErr.missingMetric k := by
  unfold finishParse at h
  cases hf : (if ver = 3 then requiredV3 else requiredV4).find?
      (fun k => (lookupKV (extractPairs (splitC '/' s).tail) k).isNone) with
  | some k =>
    rw [hf] at h
    simp only [Except.error.injEq] at h
    exact ⟨k, h.symm⟩
  | none =>
    rw [hf] at h
    exact Except.noConfusion h

/-- `find?` returns the first element of the list satisfying the predicate. -/
lemma find?_first {α : Type} (p : α → Bool) (pre post : List α) (k : α)
    (hk : p k = true) (hpre : ∀ x ∈ pre, p x = false) :
    (pre ++ k :: post).find? p = some k := by
  induction pre with
  | nil => simp [List.find?_cons, hk]
  | cons a as ih =>
    have ha : p a = false := hpre a (by simp)
    simp only [List.cons_append, List.find?_cons, ha]
    exact ih (fun x hx => hpre x (by simp [hx]))

end CVSS


namespace CVSS

/-! ## Further helper lemmas for the claims -/

lemma mem_of_getLast?_eq {l : Str} {a : Char} (h : l.getLast? = some a) : a ∈ l := by
  obtain ⟨hne, rfl⟩ := List.mem_getLast?_eq_getLast (l := l) (x := a) (by simp [h])
  exact List.getLast_mem hne

lemma slashSegs_append (xs : List Str) (s : Str) :
    slashSegs (xs ++ [s]) = slashSegs xs ++ '/' :: s := by
  induction xs with
  | nil => simp [slashSegs]
  | cons t ts ih => simp [slashSegs, ih]

lemma avChar_inj : ∀ v w : AttackVector, v.char = w.char → v = w := by
  intro v w h
  cases v <;> cases w <;> first | rfl | exact absurd h (by decide)

lemma acChar_inj : ∀ v w : AttackComplexity, v.char = w.char → v = w := by
  intro v w h
  cases v <;> cases w <;> first | rfl | exact absurd h (by decide)

lemma prChar_inj : ∀ v w : PrivilegesRequired, v.char = w.char → v = w := by
  intro v w h
  cases v <;> cases w <;> first | rfl | exact absurd h (by decide)

lemma ui3Char_inj : ∀ v w : UserInteractionV3, v.char = w.char → v = w := by
  intro v w h
  cases v <;> cases w <;> first | rfl | exact absurd h (by decide)

lemma sChar_inj : ∀ v w : Scope, v.char = w.char → v = w := by
  intro v w h
  cases v <;> cases w <;> first | rfl | exact absurd h (by decide)

lemma impChar_inj : ∀ v w : Impact, v.char = w.char → v = w := by
  intro v w h
  cases v <;> cases w <;> first | rfl | exact absurd h (by decide)

lemma atChar_inj : ∀ v w : AttackRequirements, v.char = w.char → v = w := by
  intro v w h
  cases v <;> cases w <;> first | rfl | exact absurd h (by decide)

lemma ui4Char_inj : ∀ v w : UserInteractionV4, v.char = w.char → v = w := by
  intro v w h
  cases v <;> cases w <;> first | rfl | exact absurd h (by decide)

/-- The segments of a serialized v3 vector contain no slash. -/
lemma v3segs_no_slash (m : V3Metrics) : ∀ s ∈ v3segs m, '/' ∉ s := by
  intro s hs
  simp only [v3segs, List.mem_cons, List.not_mem_nil, or_false] at hs
  rcases hs with rfl | rfl | rfl | rfl | rfl | rfl | rfl | rfl
  · exact no_slash_seg (by decide) (avChar_good m.AV)
  · exact no_slash_seg (by decide) (acChar_good m.AC)
  · exact no_slash_seg (by decide) (prChar_good m.PR)
  · exact no_slash_seg (by decide) (ui3Char_good m.UI)
  · exact no_slash_seg (by decide) (sChar_good m.S)
  · exact no_slash_seg (by decide) (impChar_good m.C)
  · exact no_slash_seg (by decide) (impChar_good m.I)
  · exact no_slash_seg (by decide) (impChar_good m.A)

/-- The segments of a serialized v4 vector contain no slash. -/
lemma v4segs_no_slash (m : V4Metrics) : ∀ s ∈ v4segs m, '/' ∉ s := by
  intro s hs
  simp only [v4segs, List.mem_cons, List.not_mem_nil, or_false] at hs
  rcases hs with rfl | rfl | rfl | rfl | rfl | rfl | rfl | rfl | rfl | rfl | rfl
  · exact no_slash_seg (by decide) (avChar_good m.AV)
  · exact no_slash_seg (by decide) (acChar_good m.AC)
  · exact no_slash_seg (by decide) (atChar_good m.AT)
  · exact no_slash_seg (by decide) (prChar_good m.PR)
  · exact no_slash_seg (by decide) (ui4Char_good m.UI)
  · exact no_slash_seg (by decide) (impChar_good m.VC)
  · exact no_slash_seg (by decide) (impChar_good m.VI)
  · exact no_slash_seg (by decide) (impChar_good m.VA)
  · exact no_slash_seg (by decide) (impChar_good m.SC)
  · exact no_slash_seg (by decide) (impChar_good m.SI)
  · exact no_slash_seg (by decide) (impChar_good m.SA)

/-- The serialized v3 pairs are well formed. -/
lemma v3map_good (m : V3Metrics) : ∀ p ∈ v3map m, goodPair p := by
  intro p hp
  simp only [v3map, List.mem_cons, List.not_mem_nil, or_false] at hp
  rcases hp with rfl | rfl | rfl | rfl | rfl | rfl | rfl | rfl
  · exact goodPair_of _ _ (by decide) (by decide) (avChar_good m.AV)
  · exact goodPair_of _ _ (by decide) (by decide) (acChar_good m.AC)
  · exact goodPair_of _ _ (by decide) (by decide) (prChar_good m.PR)
  · exact goodPair_of _ _ (by decide) (by decide) (ui3Char_good m.UI)
  · exact goodPair_of _ _ (by decide) (by decide) (sChar_good m.S)
  · exact goodPair_of _ _ (by decide) (by decide) (impChar_good m.C)
  · exact goodPair_of _ _ (by decide) (by decide) (impChar_good m.I)
  · exact goodPair_of _ _ (by decide) (by decide) (impChar_good m.A)

/-- The serialized v4 pairs are well formed. -/
lemma v4map_good (m : V4Metrics) : ∀ p ∈ v4map m, goodPair p := by
  intro p hp
  simp only [v4map, List.mem_cons, List.not_mem_nil, or_false] at hp
  rcases hp with rfl | rfl | rfl | rfl | rfl | rfl | rfl | rfl | rfl | rfl | rfl
  · exact goodPair_of _ _ (by decide) (by decide) (avChar_good m.AV)
  · exact goodPair_of _ _ (by decide) (by decide) (acChar_good m.AC)
  · exact goodPair_of _ _ (by decide) (by decide) (atChar_good m.AT)
  · exact goodPair_of _ _ (by decide) (by decide) (prChar_good m.PR)
  · exact goodPair_of _ _ (by decide) (by decide) (ui4Char_good m.UI)
  · exact goodPair_of _ _ (by decide) (by decide) (impChar_good m.VC)
  · exact goodPair_of _ _ (by decide) (by decide) (impChar_good m.VI)
  · exact goodPair_of _ _ (by decide) (by decide) (impChar_good m.VA)
  · exact goodPair_of _ _ (by decide) (by decide) (impChar_good m.SC)
  · exact goodPair_of _ _ (by decide) (by decide) (impChar_good m.SI)
  · exact goodPair_of _ _ (by decide) (by decide) (impChar_good m.SA)

/-- Parsing a serialized legal v3 metric set recovers exactly its metrics
object. -/
lemma parse_gen3_eq (m : V3Metrics) :
    parseVector (generateVector3 m) = .ok ⟨3, v3map m⟩ := by
  have hlast : ∀ c, (generateVector3 m).getLast? = some c → ws c = false := by
    intro c hc
    have h : (generateVector3 m).getLast? = some m.A.char := rfl
    rw [h, Option.some_inj] at hc
    rw [← hc]
    exact (impChar_good m.A).2.2
  have hsplit : splitC '/' (generateVector3 m) = strL "CVSS:3.1" :: v3segs m :=
    splitC_slashSegs (v3segs m) (by decide) (v3segs_no_slash m)
  have hmap : extractPairs (v3segs m) = v3map m := by
    have hv3 : v3segs m = (v3map m).map (fun p => p.1 ++ ':' :: p.2) := rfl
    unfold extractPairs
    rw [hv3, foldl_extractStep_toSegs _ _ (v3map_good m)]
    rfl
  have hfin : finishParse 3 (generateVector3 m) = .ok ⟨3, v3map m⟩ := by
    unfold finishParse
    rw [hsplit, List.tail_cons, hmap]
    rfl
  exact (parseVector_eq_finishParse3 hlast).trans hfin

/-- Parsing a serialized legal v4 metric set recovers exactly its metrics
object. -/
lemma parse_gen4_eq (m : V4Metrics) :
    parseVector (generateVector4 m) = .ok ⟨4, v4map m⟩ := by
  have hlast : ∀ c, (generateVector4 m).getLast? = some c → ws c = false := by
    intro c hc
    have h : (generateVector4 m).getLast? = some m.SA.char := rfl
    rw [h, Option.some_inj] at hc
    rw [← hc]
    exact (impChar_good m.SA).2.2
  have hsplit : splitC '/' (generateVector4 m) = strL "CVSS:4.0" :: v4segs m :=
    splitC_slashSegs (v4segs m) (by decide) (v4segs_no_slash m)
  have hmap : extractPairs (v4segs m) = v4map m := by
    have hv4 : v4segs m = (v4map m).map (fun p => p.1 ++ ':' :: p.2) := rfl
    unfold extractPairs
    rw [hv4, foldl_extractStep_toSegs _ _ (v4map_good m)]
    rfl
  have hfin : finishParse 4 (generateVector4 m) = .ok ⟨4, v4map m⟩ := by
    unfold finishParse
    rw [hsplit, List.tail_cons, hmap]
    rfl
  exact (parseVector_eq_finishParse4 hlast).trans hfin

/-- The canonical metrics object determines the v3 metric set. -/
lemma v3map_inj (m m' : V3Metrics) (h : v3map m = v3map m') : m = m' := by
  obtain ⟨av, ac, pr, ui, s, c, i, a⟩ := m
  obtain ⟨av', ac', pr', ui', s', c', i', a'⟩ := m'
  simp only [v3map, List.cons.injEq, Prod.mk.injEq, true_and, and_true] at h
  obtain ⟨h1, h2, h3, h4, h5, h6, h7, h8⟩ := h
  rw [avChar_inj _ _ h1, acChar_inj _ _ h2, prChar_inj _ _ h3, ui3Char_inj _ _ h4,
    sChar_inj _ _ h5, impChar_inj _ _ h6, impChar_inj _ _ h7, impChar_inj _ _ h8]

/-- The canonical metrics object determines the v4 metric set. -/
lemma v4map_inj (m m' : V4Metrics) (h : v4map m = v4map m') : m = m' := by
  obtain ⟨av, ac, at', pr, ui, vc, vi, va, sc, si, sa⟩ := m
  obtain ⟨av', ac', at'', pr', ui', vc', vi', va', sc', si', sa'⟩ := m'
  simp only [v4map, List.cons.injEq, Prod.mk.injEq, true_and, and_true] at h
  obtain ⟨h1, h2, h3, h4, h5, h6, h7, h8, h9, h10, h11⟩ := h
  rw [avChar_inj _ _ h1, acChar_inj _ _ h2, atChar_inj _ _ h3, prChar_inj _ _ h4,
    ui4Char_inj _ _ h5, impChar_inj _ _ h6, impChar_inj _ _ h7, impChar_inj _ _ h8,
    impChar_inj _ _ h9, impChar_inj _ _ h10, impChar_inj _ _ h11]

end CVSS

namespace CVSS

/-! ## Claim theorems -/

/-- Claim C1: scoring the v3 vector `CVSS:3.1/AV:N/AC:L/PR:N/UI:N/S:U/C:H/I:H/A:H`
(`calculateCVSSv3Score` on the parsed metric set) returns exactly 9.8, and the
severity of 9.8 is Critical. -/
theorem scenario1_score_critical :
    parseVector (strL "CVSS:3.1/AV:N/AC:L/PR:N/UI:N/S:U/C:H/I:H/A:H") =
      .ok ⟨3, v3map ⟨.N, .L, .N, .N, .U, .H, .H, .H⟩⟩
    ∧ calculateCVSSv3Score ⟨.N, .L, .N, .N, .U, .H, .H, .H⟩ = 9.8
    ∧ getSeverity (calculateCVSSv3Score ⟨.N, .L, .N, .N, .U, .H, .H, .H⟩) = "Critical" := by
  have hs : calculateCVSSv3Score ⟨.N, .L, .N, .N, .U, .H, .H, .H⟩ = 9.8 := by
    show roundUp _ = _
    simp only [calculateCVSSv3Score, av_weight, ac_weight, pr_weight, ui_weight,
      cia_weight, reduceIte]
    rw [min_eq_left (by norm_num), roundUp_eq _ 98 (by norm_num) (by norm_num)]
    norm_num
  refine ⟨by decide, hs, ?_⟩
  rw [hs, getSeverity, if_neg (by norm_num), if_neg (by norm_num), if_neg (by norm_num),
    if_neg (by norm_num)]

/-- Claim C2: for every legal v3 metric set, `calculateCVSSv3Score` computes
exactly the spec's §4.2 v3 algorithm: ISS, the Scope-dependent Impact formula,
the base-score rule with the `Impact ≤ 0` cutoff and 1.08 scaling for
Scope=C, and the ceiling-based one-decimal round-up. -/
theorem scoreV3_matches_spec_formula (m : V3Metrics) :
    calculateCVSSv3Score m = specScoreV3 m := by
  have hav : specAVweight = av_weight := funext fun v => by
    cases v <;> norm_num [specAVweight, av_weight]
  have hac : specACweight = ac_weight := funext fun v => by
    cases v <;> norm_num [specACweight, ac_weight]
  have hpr : specPRweight = pr_weight := funext fun v => funext fun s => by
    cases v <;> cases s <;> norm_num [specPRweight, pr_weight]
  have hui : specUIweight = ui_weight := funext fun v => by
    cases v <;> norm_num [specUIweight, ui_weight]
  have hcia : specCIAweight = cia_weight := funext fun v => by
    cases v <;> norm_num [specCIAweight, cia_weight]
  simp only [specScoreV3, specRoundUp, specBaseScoreV3, specImpactV3,
    specExploitabilityV3, specISS, hav, hac, hpr, hui, hcia,
    calculateCVSSv3Score, roundUp]

/-- Claim C3: for every legal v4 metric set, `calculateCVSSv4Score` equals the
rounded-up value of `min(Impact + Exploitability, 10)` with the claimed weight
tables, `Exploitability = 8.22·AVw·ACw·ATw·PRw·UIw` and
`Impact = 6.42·max(VulnImpact, SubImpact)`. -/
theorem scoreV4_matches_spec_formula (m : V4Metrics) :
    calculateCVSSv4Score m = specScoreV4 m := by
  have h1 : specAV4weight = av4_weight := funext fun v => by
    cases v <;> norm_num [specAV4weight, av4_weight]
  have h2 : specAC4weight = ac4_weight := funext fun v => by
    cases v <;> norm_num [specAC4weight, ac4_weight]
  have h3 : specAT4weight = at4_weight := funext fun v => by
    cases v <;> norm_num [specAT4weight, at4_weight]
  have h4 : specPR4weight = pr4_weight := funext fun v => by
    cases v <;> norm_num [specPR4weight, pr4_weight]
  have h5 : specUI4weight = ui4_weight := funext fun v => by
    cases v <;> norm_num [specUI4weight, ui4_weight]
  have h6 : specImp4weight = imp4_weight := funext fun v => by
    cases v <;> norm_num [specImp4weight, imp4_weight]
  simp only [specScoreV4, specRoundUp, specImpactV4, specVulnImpact, specSubImpact,
    specExploitabilityV4, h1, h2, h3, h4, h5, h6, calculateCVSSv4Score, roundUp]

/-- Claim C4: round-trip — parsing the string serialized from any legal metric
set of either shape succeeds and returns exactly that metric set's metrics
object, and the metrics object determines the metric set. -/
theorem parse_serialize_roundtrip :
    (∀ m : V3Metrics, parseVector (generateVector3 m) = .ok ⟨3, v3map m⟩)
    ∧ (∀ m : V4Metrics, parseVector (generateVector4 m) = .ok ⟨4, v4map m⟩)
    ∧ (∀ m m' : V3Metrics, v3map m = v3map m' → m = m')
    ∧ (∀ m m' : V4Metrics, v4map m = v4map m' → m = m') :=
  ⟨parse_gen3_eq, parse_gen4_eq, v3map_inj, v4map_inj⟩

/-- Witness for C4 at the all-High v3 metric set and the default v4 set. -/
theorem parse_serialize_roundtrip_witness :
    parseVector (generateVector3 ⟨.N, .L, .N, .N, .U, .H, .H, .H⟩) =
      .ok ⟨3, v3map ⟨.N, .L, .N, .N, .U, .H, .H, .H⟩⟩
    ∧ parseVector (generateVector4 ⟨.N, .L, .N, .N, .N, .N, .N, .N, .N, .N, .N⟩) =
      .ok ⟨4, v4map ⟨.N, .L, .N, .N, .N, .N, .N, .N, .N, .N, .N⟩⟩
    ∧ (⟨.N, .L, .N, .N, .U, .H, .H, .H⟩ : V3Metrics) = ⟨.N, .L, .N, .N, .U, .H, .H, .H⟩
    ∧ (⟨.N, .L, .N, .N, .N, .N, .N, .N, .N, .N, .N⟩ : V4Metrics) =
      ⟨.N, .L, .N, .N, .N, .N, .N, .N, .N, .N, .N⟩ :=
  ⟨parse_serialize_roundtrip.1 _, parse_serialize_roundtrip.2.1 _,
   parse_serialize_roundtrip.2.2.1 _ _ rfl, parse_serialize_roundtrip.2.2.2 _ _ rfl⟩

end CVSS

namespace CVSS

/-- Shared step for the extraction lemmas: a serialized v3 metric set extracts
to its canonical metrics object. -/
lemma extractPairs_v3segs (m : V3Metrics) : extractPairs (v3segs m) = v3map m := by
  have hv3 : v3segs m = (v3map m).map (fun p => p.1 ++ ':' :: p.2) := rfl
  unfold extractPairs
  rw [hv3, foldl_extractStep_toSegs _ _ (v3map_good m)]
  rfl

/-- Claim C8: `v4ToV3` sets Scope to C exactly when one of `SC`,`SI`,`SA` is
not N, merges the impact triads with `maxImpact`, `maxImpact` is the maximum
under the order N<L<H, and the `SC=H, VC=N` example yields Scope=C, C=H with
exactly the three notes (Scope changed, AT dropped, impacts merged). -/
theorem v4_to_v3_conversion :
    (∀ m : V4Metrics,
      ((convertV4toV3 m).1.S = Scope.C ↔
        (m.SC ≠ Impact.N ∨ m.SI ≠ Impact.N ∨ m.SA ≠ Impact.N))
      ∧ (convertV4toV3 m).1.C = maxImpact m.VC m.SC
      ∧ (convertV4toV3 m).1.I = maxImpact m.VI m.SI
      ∧ (convertV4toV3 m).1.A = maxImpact m.VA m.SA)
    ∧ (∀ a b : Impact,
        impactOrder (maxImpact a b) = max (impactOrder a) (impactOrder b)
        ∧ (maxImpact a b = a ∨ maxImpact a b = b))
    ∧ convertV4toV3 ⟨.N, .L, .N, .N, .N, .N, .N, .N, .H, .N, .N⟩ =
        (⟨.N, .L, .N, .N, .C, .H, .N, .N⟩, [warnScopeV3, warnATv3, warnMergeV3])
    ∧ (convertV4toV3 ⟨.N, .L, .N, .N, .N, .N, .N, .N, .H, .N, .N⟩).2.length = 3 := by
  refine ⟨?_, ?_, by decide, by decide⟩
  · intro m
    obtain ⟨av, ac, at', pr, ui, vc, vi, va, sc, si, sa⟩ := m
    refine ⟨?_, rfl, rfl, rfl⟩
    cases sc <;> cases si <;> cases sa <;> simp [convertV4toV3]
  · intro a b
    cases a <;> cases b <;> exact ⟨by decide, by decide⟩

/-- Claim C9: `v3ToV4` on a metric set with Scope=U and UI=N yields `AT=N`,
`UI=N`, the v3 impact triad in `VC`,`VI`,`VA`, all-N subsequent impacts, and
exactly the single AT note; with Scope=C the triad is copied into both the
vulnerable and the subsequent impacts. -/
theorem v3_to_v4_conversion :
    ∀ m : V3Metrics,
      ((m.S = Scope.U ∧ m.UI = UserInteractionV3.N) →
        ((convertV3toV4 m).1.AT = AttackRequirements.N
         ∧ (convertV3toV4 m).1.UI = UserInteractionV4.N
         ∧ (convertV3toV4 m).1.VC = m.C ∧ (convertV3toV4 m).1.VI = m.I
         ∧ (convertV3toV4 m).1.VA = m.A
         ∧ (convertV3toV4 m).1.SC = Impact.N ∧ (convertV3toV4 m).1.SI = Impact.N
         ∧ (convertV3toV4 m).1.SA = Impact.N
         ∧ (convertV3toV4 m).2 = [warnATv4]))
      ∧ (m.S = Scope.C →
          ((convertV3toV4 m).1.VC = m.C ∧ (convertV3toV4 m).1.VI = m.I
           ∧ (convertV3toV4 m).1.VA = m.A
           ∧ (convertV3toV4 m).1.SC = m.C ∧ (convertV3toV4 m).1.SI = m.I
           ∧ (convertV3toV4 m).1.SA = m.A)) := by
  intro m
  obtain ⟨av, ac, pr, ui, s, c, i, a⟩ := m
  constructor
  · rintro ⟨rfl, rfl⟩
    exact ⟨rfl, rfl, rfl, rfl, rfl, rfl, rfl, rfl, rfl⟩
  · rintro rfl
    exact ⟨rfl, rfl, rfl, rfl, rfl, rfl⟩

/-- Witness for C9: scenario 1 (Scope=U, UI=N) and a Scope=C metric set. -/
theorem v3_to_v4_conversion_witness :
    ((convertV3toV4 ⟨.N, .L, .N, .N, .U, .H, .H, .H⟩).1.AT = AttackRequirements.N
     ∧ (convertV3toV4 ⟨.N, .L, .N, .N, .U, .H, .H, .H⟩).1.UI = UserInteractionV4.N
     ∧ (convertV3toV4 ⟨.N, .L, .N, .N, .U, .H, .H, .H⟩).1.VC = Impact.H
     ∧ (convertV3toV4 ⟨.N, .L, .N, .N, .U, .H, .H, .H⟩).1.VI = Impact.H
     ∧ (convertV3toV4 ⟨.N, .L, .N, .N, .U, .H, .H, .H⟩).1.VA = Impact.H
     ∧ (convertV3toV4 ⟨.N, .L, .N, .N, .U, .H, .H, .H⟩).1.SC = Impact.N
     ∧ (convertV3toV4 ⟨.N, .L, .N, .N, .U, .H, .H, .H⟩).1.SI = Impact.N
     ∧ (convertV3toV4 ⟨.N, .L, .N, .N, .U, .H, .H, .H⟩).1.SA = Impact.N
     ∧ (convertV3toV4 ⟨.N, .L, .N, .N, .U, .H, .H, .H⟩).2 = [warnATv4])
    ∧ ((convertV3toV4 ⟨.L, .H, .H, .R, .C, .L, .L, .L⟩).1.VC = Impact.L
       ∧ (convertV3toV4 ⟨.L, .H, .H, .R, .C, .L, .L, .L⟩).1.VI = Impact.L
       ∧ (convertV3toV4 ⟨.L, .H, .H, .R, .C, .L, .L, .L⟩).1.VA = Impact.L
       ∧ (convertV3toV4 ⟨.L, .H, .H, .R, .C, .L, .L, .L⟩).1.SC = Impact.L
       ∧ (convertV3toV4 ⟨.L, .H, .H, .R, .C, .L, .L, .L⟩).1.SI = Impact.L
       ∧ (convertV3toV4 ⟨.L, .H, .H, .R, .C, .L, .L, .L⟩).1.SA = Impact.L) :=
  ⟨(v3_to_v4_conversion ⟨.N, .L, .N, .N, .U, .H, .H, .H⟩).1 ⟨rfl, rfl⟩,
   (v3_to_v4_conversion ⟨.L, .H, .H, .R, .C, .L, .L, .L⟩).2 rfl⟩

/-- Claim C10 (implicit): duplicate metric keys cause no error; the extracted
metrics object maps a duplicated key to the value of its last well-formed
occurrence, overwriting earlier ones. -/
theorem duplicate_keys_last_wins :
    (∀ (ps : List Str) (k v : Str), k ≠ [] → v ≠ [] → ':' ∉ k → ':' ∉ v →
      lookupKV (extractPairs (ps ++ [k ++ ':' :: v])) k = some v)
    ∧ (∀ (m : V3Metrics) (v : Str), v ≠ [] → ':' ∉ v → '/' ∉ v →
        (∀ c ∈ v, ws c = false) →
        parseVector (generateVector3 m ++ '/' :: (strL "AV" ++ ':' :: v)) =
          .ok ⟨3, insertKV (v3map m) (strL "AV") v⟩
        ∧ lookupKV (insertKV (v3map m) (strL "AV") v) (strL "AV") = some v) := by
  constructor
  · intro ps k v hk hv hkc hvc
    unfold extractPairs
    rw [List.foldl_append]
    simp only [List.foldl_cons, List.foldl_nil]
    rw [extractStep_eq _ hk hv hkc hvc]
    exact lookupKV_insertKV_self _ _ _
  · intro m v hv hvc hvs hvw
    have hseg : '/' ∉ strL "AV" ++ ':' :: v := by
      simp only [List.mem_append, List.mem_cons, not_or]
      exact ⟨by decide, by decide, hvs⟩
    have hs : generateVector3 m ++ '/' :: (strL "AV" ++ ':' :: v) =
        strL "CVSS:3.1" ++ slashSegs (v3segs m ++ [strL "AV" ++ ':' :: v]) := by
      unfold generateVector3
      rw [slashSegs_append, List.append_assoc]
    have hlast : ∀ c,
        (strL "CVSS:3.1" ++ slashSegs (v3segs m ++ [strL "AV" ++ ':' :: v])).getLast? =
          some c → ws c = false := by
      intro c hc
      rw [slashSegs_append, ← List.append_assoc,
        List.getLast?_append_of_ne_nil _ (List.cons_ne_nil _ _),
        show ('/' :: (strL "AV" ++ ':' :: v)) = ('/' :: strL "AV" ++ [':']) ++ v from rfl,
        List.getLast?_append_of_ne_nil _ hv] at hc
      exact hvw c (mem_of_getLast?_eq hc)
    have hsplit : splitC '/' (strL "CVSS:3.1" ++ slashSegs (v3segs m ++ [strL "AV" ++ ':' :: v])) =
        strL "CVSS:3.1" :: (v3segs m ++ [strL "AV" ++ ':' :: v]) := by
      apply splitC_slashSegs _ (by decide)
      intro s hsm
      rcases List.mem_append.mp hsm with h | h
      · exact v3segs_no_slash m s h
      · rw [List.mem_singleton.mp h]
        exact hseg
    have hmap : extractPairs (v3segs m ++ [strL "AV" ++ ':' :: v]) =
        insertKV (v3map m) (strL "AV") v := by
      unfold extractPairs
      rw [List.foldl_append]
      simp only [List.foldl_cons, List.foldl_nil]
      rw [show List.foldl extractStep [] (v3segs m) = extractPairs (v3segs m) from rfl,
        extractPairs_v3segs m, extractStep_eq _ (by decide) hv (by decide) hvc]
    have hfin : finishParse 3 (strL "CVSS:3.1" ++ slashSegs (v3segs m ++ [strL "AV" ++ ':' :: v])) =
        .ok ⟨3, insertKV (v3map m) (strL "AV") v⟩ := by
      unfold finishParse
      rw [hsplit, List.tail_cons, hmap]
      rfl
    refine ⟨?_, lookupKV_insertKV_self _ _ _⟩
    rw [hs]
    exact (parseVector_eq_finishParse3 hlast).trans hfin

/-- Witness for C10: a concrete duplicated `AV` key, last value `L` winning. -/
theorem duplicate_keys_last_wins_witness :
    lookupKV (extractPairs ([strL "AV" ++ ':' :: strL "N"] ++ [strL "AV" ++ ':' :: strL "L"]))
      (strL "AV") = some (strL "L")
    ∧ parseVector (generateVector3 ⟨.N, .L, .N, .N, .U, .H, .H, .H⟩ ++
        '/' :: (strL "AV" ++ ':' :: strL "L")) =
      .ok ⟨3, insertKV (v3map ⟨.N, .L, .N, .N, .U, .H, .H, .H⟩) (strL "AV") (strL "L")⟩ :=
  ⟨duplicate_keys_last_wins.1 _ _ _ (by decide) (by decide) (by decide) (by decide),
   (duplicate_keys_last_wins.2 ⟨.N, .L, .N, .N, .U, .H, .H, .H⟩ (strL "L") (by decide)
     (by decide) (by decide) (by decide)).1⟩

end CVSS

namespace CVSS

lemma extractStep_skip (acc : List (Str × Str)) {s : Str} (h : badSeg s = true) :
    extractStep acc s = acc := by
  unfold badSeg at h
  unfold extractStep
  cases hs : splitC ':' s with
  | nil => rfl
  | cons k rest =>
    cases rest with
    | nil => rfl
    | cons v junk =>
      rw [hs] at h
      have hkv : k = [] ∨ v = [] := by
        simpa [List.isEmpty_iff] using h
      simp [hkv]

/-- Claim C6 counterexample: the v3 vector carrying the illegal value `AV:X`
parses successfully (no `InvalidValue` rejection exists in the code); `X` is
outside the legal `AV` set. -/
theorem invalid_value_accepted_counterexample :
    parseVector (strL "CVSS:3.1/AV:X/AC:L/PR:N/UI:N/S:U/C:H/I:H/A:H") =
      .ok ⟨3, [(strL "AV", strL "X"), (strL "AC", strL "L"), (strL "PR", strL "N"),
               (strL "UI", strL "N"), (strL "S", strL "U"), (strL "C", strL "H"),
               (strL "I", strL "H"), (strL "A", strL "H")]⟩
    ∧ strL "X" ∉ [strL "N", strL "A", strL "L", strL "P"] := by decide

/-- Claim C6 as amended: the parser performs no value-legality validation — a
present required key with any non-empty, separator-free value (legal or not)
is accepted, and the returned metrics object maps the key to that raw value. -/
theorem parse_no_value_validation :
    ∀ (m : V3Metrics) (v : Str), v ≠ [] → ':' ∉ v → '/' ∉ v →
      (∀ c ∈ v, ws c = false) →
      parseVector (strL "CVSS:3.1" ++ slashSegs ((strL "AV" ++ ':' :: v) :: (v3segs m).tail)) =
        .ok ⟨3, (strL "AV", v) :: (v3map m).tail⟩ := by
  intro m v hv hvc hvs hvw
  have htail_ne : slashSegs ((v3segs m).tail) ≠ [] := by
    simp [v3segs, slashSegs]
  have hlast : ∀ c,
      (strL "CVSS:3.1" ++ slashSegs ((strL "AV" ++ ':' :: v) :: (v3segs m).tail)).getLast? =
        some c → ws c = false := by
    intro c hc
    rw [show slashSegs ((strL "AV" ++ ':' :: v) :: (v3segs m).tail) =
          ('/' :: (strL "AV" ++ ':' :: v)) ++ slashSegs ((v3segs m).tail) from rfl,
      ← List.append_assoc,
      List.getLast?_append_of_ne_nil _ htail_ne,
      show (slashSegs ((v3segs m).tail)).getLast? = some m.A.char from rfl,
      Option.some_inj] at hc
    rw [← hc]
    exact (impChar_good m.A).2.2
  have hseg : '/' ∉ strL "AV" ++ ':' :: v := by
    simp only [List.mem_append, List.mem_cons, not_or]
    exact ⟨by decide, by decide, hvs⟩
  have hsplit : splitC '/'
      (strL "CVSS:3.1" ++ slashSegs ((strL "AV" ++ ':' :: v) :: (v3segs m).tail)) =
      strL "CVSS:3.1" :: ((strL "AV" ++ ':' :: v) :: (v3segs m).tail) := by
    apply splitC_slashSegs _ (by decide)
    intro s hsm
    rcases List.mem_cons.mp hsm with rfl | h
    · exact hseg
    · exact v3segs_no_slash m s (List.mem_of_mem_tail h)
  have hmap : extractPairs ((strL "AV" ++ ':' :: v) :: (v3segs m).tail) =
      (strL "AV", v) :: (v3map m).tail := by
    unfold extractPairs
    rw [List.foldl_cons, extractStep_eq _ (by decide) hv (by decide) hvc,
      show (v3segs m).tail = ((v3map m).tail).map (fun p => p.1 ++ ':' :: p.2) from rfl,
      foldl_extractStep_toSegs _ _ (fun p hp => v3map_good m p (List.mem_of_mem_tail hp))]
    rfl
  have hfin : finishParse 3
      (strL "CVSS:3.1" ++ slashSegs ((strL "AV" ++ ':' :: v) :: (v3segs m).tail)) =
      .ok ⟨3, (strL "AV", v) :: (v3map m).tail⟩ := by
    unfold finishParse
    rw [hsplit, List.tail_cons, hmap]
    rfl
  exact (parseVector_eq_finishParse3 hlast).trans hfin

/-- Witness for the amended C6 at the illegal value `X`. -/
theorem parse_no_value_validation_witness :
    parseVector (strL "CVSS:3.1" ++
        slashSegs ((strL "AV" ++ ':' :: strL "X") ::
          (v3segs ⟨.N, .L, .N, .N, .U, .H, .H, .H⟩).tail)) =
      .ok ⟨3, (strL "AV", strL "X") :: (v3map ⟨.N, .L, .N, .N, .U, .H, .H, .H⟩).tail⟩ :=
  parse_no_value_validation ⟨.N, .L, .N, .N, .U, .H, .H, .H⟩ (strL "X")
    (by decide) (by decide) (by decide) (by decide)

end CVSS

namespace CVSS

/-- Claim C7 counterexample: for the segment `C:H:Z`, the claimed
split-once-at-the-first-colon semantics yields the non-empty pair
`(C, H:Z)`, so the claim predicts the map entry `C ↦ H:Z`; the code instead
takes only the first two split components and stores `C ↦ H`. -/
theorem segment_split_once_counterexample :
    splitOnceColon (strL "C:H:Z") = some (strL "C", strL "H:Z")
    ∧ strL "C" ≠ [] ∧ strL "H:Z" ≠ []
    ∧ parseVector (strL "CVSS:3.1/AV:N/AC:L/PR:N/UI:N/S:U/C:H:Z/I:H/A:H") =
        .ok ⟨3, [(strL "AV", strL "N"), (strL "AC", strL "L"), (strL "PR", strL "N"),
                 (strL "UI", strL "N"), (strL "S", strL "U"), (strL "C", strL "H"),
                 (strL "I", strL "H"), (strL "A", strL "H")]⟩
    ∧ lookupKV [(strL "AV", strL "N"), (strL "AC", strL "L"), (strL "PR", strL "N"),
                (strL "UI", strL "N"), (strL "S", strL "U"), (strL "C", strL "H"),
                (strL "I", strL "H"), (strL "A", strL "H")] (strL "C") = some (strL "H")
    ∧ strL "H" ≠ strL "H:Z" := by decide

/-- Claim C7 as amended: each segment is split on `:` and the first two
components are taken as key and value (content after a second colon is
discarded); any segment failing to produce both a non-empty key and a
non-empty value is silently skipped and never an error by itself. -/
theorem malformed_segment_skipped :
    (∀ (acc : List (Str × Str)) (s : Str), badSeg s = true → extractStep acc s = acc)
    ∧ (∀ (parts1 parts2 : List Str) (s : Str), badSeg s = true →
        extractPairs (parts1 ++ s :: parts2) = extractPairs (parts1 ++ parts2))
    ∧ (∀ (acc : List (Str × Str)) (k v junk : Str), k ≠ [] → v ≠ [] →
        ':' ∉ k → ':' ∉ v →
        extractStep acc (k ++ ':' :: (v ++ ':' :: junk)) = insertKV acc k v)
    ∧ (∀ (m : V3Metrics) (s : Str), badSeg s = true → '/' ∉ s →
        parseVector (strL "CVSS:3.1" ++ slashSegs (s :: v3segs m)) = .ok ⟨3, v3map m⟩) := by
  refine ⟨extractStep_skip, ?_, ?_, ?_⟩
  · intro parts1 parts2 s h
    unfold extractPairs
    rw [List.foldl_append, List.foldl_append, List.foldl_cons, extractStep_skip _ h]
  · intro acc k v junk hk hv hkc hvc
    unfold extractStep
    rw [splitC_append hkc, splitC_append hvc]
    simp [hk, hv]
  · intro m s hbad hs
    have hsegs_ne : slashSegs (v3segs m) ≠ [] := by
      simp [v3segs, slashSegs]
    have hlast : ∀ c,
        (strL "CVSS:3.1" ++ slashSegs (s :: v3segs m)).getLast? = some c → ws c = false := by
      intro c hc
      rw [show slashSegs (s :: v3segs m) = ('/' :: s) ++ slashSegs (v3segs m) from rfl,
        ← List.append_assoc,
        List.getLast?_append_of_ne_nil _ hsegs_ne,
        show (slashSegs (v3segs m)).getLast? = some m.A.char from rfl,
        Option.some_inj] at hc
      rw [← hc]
      exact (impChar_good m.A).2.2
    have hsplit : splitC '/' (strL "CVSS:3.1" ++ slashSegs (s :: v3segs m)) =
        strL "CVSS:3.1" :: (s :: v3segs m) := by
      apply splitC_slashSegs _ (by decide)
      intro t ht
      rcases List.mem_cons.mp ht with rfl | h
      · exact hs
      · exact v3segs_no_slash m t h
    have hmap : extractPairs (s :: v3segs m) = v3map m := by
      unfold extractPairs
      rw [List.foldl_cons, extractStep_skip _ hbad,
        show List.foldl extractStep [] (v3segs m) = extractPairs (v3segs m) from rfl,
        extractPairs_v3segs m]
    have hfin : finishParse 3 (strL "CVSS:3.1" ++ slashSegs (s :: v3segs m)) =
        .ok ⟨3, v3map m⟩ := by
      unfold finishParse
      rw [hsplit, List.tail_cons, hmap]
      rfl
    exact (parseVector_eq_finishParse3 hlast).trans hfin

/-- Witness for the amended C7: a skipped `A::B` segment, a truncated
`C:H:Z` segment, and a full parse ignoring an inserted `A::B` segment. -/
theorem malformed_segment_skipped_witness :
    extractStep [] (strL "A::B") = []
    ∧ extractPairs [strL "EX::Z"] = extractPairs []
    ∧ extractStep [] (strL "C" ++ ':' :: (strL "H" ++ ':' :: strL "Z")) =
        insertKV [] (strL "C") (strL "H")
    ∧ parseVector (strL "CVSS:3.1" ++
        slashSegs (strL "A::B" :: v3segs ⟨.N, .L, .N, .N, .U, .H, .H, .H⟩)) =
      .ok ⟨3, v3map ⟨.N, .L, .N, .N, .U, .H, .H, .H⟩⟩ :=
  ⟨malformed_segment_skipped.1 [] (strL "A::B") (by decide),
   malformed_segment_skipped.2.1 [] [] (strL "EX::Z") (by decide),
   malformed_segment_skipped.2.2.1 [] (strL "C") (strL "H") (strL "Z")
     (by decide) (by decide) (by decide) (by decide),
   malformed_segment_skipped.2.2.2 ⟨.N, .L, .N, .N, .U, .H, .H, .H⟩ (strL "A::B")
     (by decide) (by decide)⟩

end CVSS

namespace CVSS

/-- `finishParse` reports the first required key (in list order) whose lookup
in the extracted metrics object fails. -/
lemma finishParse_missing {ver : Nat} {s : Str} {req : List Str}
    (hver : (if ver = 3 then requiredV3 else requiredV4) = req)
    (pre post : List Str) (k : Str) (hreq : req = pre ++ k :: post)
    (hmiss : lookupKV (extractPairs (splitC '/' s).tail) k = none)
    (hpre : ∀ k' ∈ pre, lookupKV (extractPairs (splitC '/' s).tail) k' ≠ none) :
    finishParse ver s = .error (.missingMetric k) := by
  have hp : ∀ x ∈ pre,
      (fun k' => (lookupKV (extractPairs (splitC '/' s).tail) k').isNone) x = false := by
    intro x hx
    rcases hcase : lookupKV (extractPairs (splitC '/' s).tail) x with _ | val
    · exact absurd hcase (hpre x hx)
    · simp only [hcase, Option.isNone_some]
  have hk : (fun k' => (lookupKV (extractPairs (splitC '/' s).tail) k').isNone) k = true := by
    simp only [hmiss, Option.isNone_none]
  unfold finishParse
  rw [hver, hreq, find?_first _ pre post k hk hp]

/-- Claim C5 counterexample: the empty input fails with the distinct
empty-input error, not `InvalidFormat`, although it does not start with any of
the three recognized prefixes; and an input with a leading space does not
start with `CVSS:3.1` yet parses successfully (the code trims first). -/
theorem parse_error_contract_counterexample :
    parseVector [] = .error ParseErr.emptyInput
    ∧ ParseErr.emptyInput ≠ ParseErr.invalidFormat
    ∧ startsWithL (strL "CVSS:3.0") [] = false
    ∧ startsWithL (strL "CVSS:3.1") [] = false
    ∧ startsWithL (strL "CVSS:4.0") [] = false
    ∧ startsWithL (strL "CVSS:3.1")
        (strL " CVSS:3.1/AV:N/AC:L/PR:N/UI:N/S:U/C:H/I:H/A:H") = false
    ∧ parseVector (strL " CVSS:3.1/AV:N/AC:L/PR:N/UI:N/S:U/C:H/I:H/A:H") =
        .ok ⟨3, [(strL "AV", strL "N"), (strL "AC", strL "L"), (strL "PR", strL "N"),
                 (strL "UI", strL "N"), (strL "S", strL "U"), (strL "C", strL "H"),
                 (strL "I", strL "H"), (strL "A", strL "H")]⟩ := by decide

/-- Claim C5 as amended: after trimming, empty input fails with the distinct
empty-input error; `InvalidFormat` occurs exactly on non-empty trimmed input
starting with none of `CVSS:3.0`, `CVSS:3.1`, `CVSS:4.0`; and when a
recognized prefix is present, a missing required key of the version's shape
fails with `MissingMetric` of the first missing key in canonical order. -/
theorem parse_error_contract_amended :
    (∀ v : Str, parseVector v = .error ParseErr.emptyInput ↔ trim v = [])
    ∧ (∀ v : Str, parseVector v = .error ParseErr.invalidFormat ↔
        (trim v ≠ []
         ∧ startsWithL (strL "CVSS:3.0") (trim v) = false
         ∧ startsWithL (strL "CVSS:3.1") (trim v) = false
         ∧ startsWithL (strL "CVSS:4.0") (trim v) = false))
    ∧ (∀ (v : Str) (pre post : List Str) (k : Str),
        (startsWithL (strL "CVSS:3.0") (trim v)
          || startsWithL (strL "CVSS:3.1") (trim v)) = true →
        requiredV3 = pre ++ k :: post →
        lookupKV (extractPairs (splitC '/' (trim v)).tail) k = none →
        (∀ k' ∈ pre, lookupKV (extractPairs (splitC '/' (trim v)).tail) k' ≠ none) →
        parseVector v = .error (.missingMetric k))
    ∧ (∀ (v : Str) (pre post : List Str) (k : Str),
        startsWithL (strL "CVSS:3.0") (trim v) = false →
        startsWithL (strL "CVSS:3.1") (trim v) = false →
        startsWithL (strL "CVSS:4.0") (trim v) = true →
        requiredV4 = pre ++ k :: post →
        lookupKV (extractPairs (splitC '/' (trim v)).tail) k = none →
        (∀ k' ∈ pre, lookupKV (extractPairs (splitC '/' (trim v)).tail) k' ≠ none) →
        parseVector v = .error (.missingMetric k)) := by
  refine ⟨?_, ?_, ?_, ?_⟩
  · intro v
    unfold parseVector
    by_cases h : trim v = []
    · simp [h]
    · rw [if_neg h]
      by_cases h3 : (startsWithL (strL "CVSS:3.0") (trim v)
          || startsWithL (strL "CVSS:3.1") (trim v)) = true
      · rw [if_pos h3]
        simp only [h, iff_false]
        intro he
        obtain ⟨k, hk⟩ := finishParse_error he
        exact ParseErr.noConfusion hk
      · rw [if_neg h3]
        by_cases h4 : startsWithL (strL "CVSS:4.0") (trim v) = true
        · rw [if_pos h4]
          simp only [h, iff_false]
          intro he
          obtain ⟨k, hk⟩ := finishParse_error he
          exact ParseErr.noConfusion hk
        · rw [if_neg h4]
          simp [h]
  · intro v
    unfold parseVector
    by_cases h : trim v = []
    · simp [h]
    · rw [if_neg h]
      by_cases h3 : (startsWithL (strL "CVSS:3.0") (trim v)
          || startsWithL (strL "CVSS:3.1") (trim v)) = true
      · rw [if_pos h3]
        constructor
        · intro he
          obtain ⟨k, hk⟩ := finishParse_error he
          exact absurd hk (by intro hx; exact ParseErr.noConfusion hx)
        · rintro ⟨-, h30, h31, -⟩
          rw [h30, h31] at h3
          exact absurd h3 (by decide)
      · rw [if_neg h3]
        by_cases h4 : startsWithL (strL "CVSS:4.0") (trim v) = true
        · rw [if_pos h4]
          constructor
          · intro he
            obtain ⟨k, hk⟩ := finishParse_error he
            exact absurd hk (by intro hx; exact ParseErr.noConfusion hx)
          · rintro ⟨-, -, -, h40⟩
            rw [h40] at h4
            exact absurd h4 (by decide)
        · rw [if_neg h4]
          have h30 : startsWithL (strL "CVSS:3.0") (trim v) = false := by
            rcases hb : startsWithL (strL "CVSS:3.0") (trim v) with _ | _
            · rfl
            · exact absurd (by rw [hb]; rfl) h3
          have h31 : startsWithL (strL "CVSS:3.1") (trim v) = false := by
            rcases hb : startsWithL (strL "CVSS:3.1") (trim v) with _ | _
            · rfl
            · exact absurd (by rw [hb]; simp) h3
          have h40 : startsWithL (strL "CVSS:4.0") (trim v) = false := by
            rcases hb : startsWithL (strL "CVSS:4.0") (trim v) with _ | _
            · rfl
            · exact absurd hb h4
          simp [h, h30, h31, h40]
  · intro v pre post k hcond hreq hmiss hpre
    have hne : trim v ≠ [] := by
      intro e
      rw [e] at hcond
      exact absurd hcond (by decide)
    unfold parseVector
    rw [if_neg hne, if_pos hcond]
    exact finishParse_missing rfl pre post k hreq hmiss hpre
  · intro v pre post k h30 h31 h40 hreq hmiss hpre
    have hne : trim v ≠ [] := by
      intro e
      rw [e] at h40
      exact absurd h40 (by decide)
    have hcond : ¬ ((startsWithL (strL "CVSS:3.0") (trim v)
        || startsWithL (strL "CVSS:3.1") (trim v)) = true) := by
      rw [h30, h31]
      decide
    unfold parseVector
    rw [if_neg hne, if_neg hcond, if_pos h40]
    exact finishParse_missing rfl pre post k hreq hmiss hpre

/-- Witness for the amended C5: a v3 vector missing `AC`, a v4 vector missing
`SA`, and the rejected `CVSS:2.0` prefix. -/
theorem parse_error_contract_amended_witness :
    parseVector (strL "CVSS:3.1/AV:N") = .error (.missingMetric (strL "AC"))
    ∧ parseVector (strL "CVSS:4.0/AV:N/AC:L/AT:N/PR:N/UI:N/VC:H/VI:H/VA:H/SC:N/SI:N") =
        .error (.missingMetric (strL "SA"))
    ∧ parseVector (strL "CVSS:2.0/AV:N/AC:L/PR:N/UI:N/S:U/C:H/I:H/A:H") =
        .error ParseErr.invalidFormat :=
  ⟨parse_error_contract_amended.2.2.1 (strL "CVSS:3.1/AV:N")
      [strL "AV"] [strL "PR", strL "UI", strL "S", strL "C", strL "I", strL "A"]
      (strL "AC") (by decide) (by decide) (by decide) (by decide),
   parse_error_contract_amended.2.2.2
      (strL "CVSS:4.0/AV:N/AC:L/AT:N/PR:N/UI:N/VC:H/VI:H/VA:H/SC:N/SI:N")
      [strL "AV", strL "AC", strL "AT", strL "PR", strL "UI", strL "VC", strL "VI",
       strL "VA", strL "SC", strL "SI"] [] (strL "SA")
      (by decide) (by decide) (by decide) (by decide) (by decide) (by decide),
   (parse_error_contract_amended.2.1
      (strL "CVSS:2.0/AV:N/AC:L/PR:N/UI:N/S:U/C:H/I:H/A:H")).mpr (by decide)⟩

end CVSS
